import Mathlib

/-!
# Verification of the brotli-stream-websocket broadcast/encoding pipeline

Shallow embedding of `src/index.ts`: the four per-method encoders
(`noCompression`, `compressWithGzip`, `compressWithBrotli`, `compressWithZstd`),
the startup dataset generator (`generateLargePriceDataset`), and the periodic
broadcast tick (`setInterval` callback), together with proofs of the spec's
claims about them.

Conventions of the embedding:
* A byte string (a JS string restricted to the ASCII data this server
  produces, or a `Buffer`) is a `List Nat` of byte values.
* The opaque library codecs (`zlib.gzipSync`, `zlib.brotliCompressSync`,
  `Bun.zstdCompressSync`) are parameters of type `Bytes → Option Bytes`;
  `Option.none` models the library call throwing.  The spec treats these
  algorithms as out-of-scope opaque calls, so only the orchestration around
  them is embedded, faithfully to which call sites catch and which do not.
* `Math.random` / `Math.sin` derived field values of the generator are
  supplied by an oracle (they are floating point and non-deterministic);
  the deterministic fields (`id`, `ts`, `timestamp`, `symbol`, `exchange`,
  `market`, `compression`) are embedded exactly.
-/

/-- A byte string: JS string / Buffer contents as a list of byte values. -/
abbrev Bytes := List Nat

/-- ASCII string literal to bytes (all string constants in the source are ASCII). -/
def str (s : String) : Bytes := s.data.map Char.toNat

/-! ## Base64 (`Buffer.prototype.toString("base64")` and its client-side inverse) -/

/-- The base64 alphabet: sextet value to ASCII code. -/
def b64char (n : Nat) : Nat :=
  if n < 26 then 65 + n
  else if n < 52 then 97 + (n - 26)
  else if n < 62 then 48 + (n - 52)
  else if n = 62 then 43
  else 47

/-- Inverse lookup: ASCII code of a base64 character to its sextet value. -/
def b64value (c : Nat) : Nat :=
  if 65 ≤ c ∧ c ≤ 90 then c - 65
  else if 97 ≤ c ∧ c ≤ 122 then 26 + (c - 97)
  else if 48 ≤ c ∧ c ≤ 57 then 52 + (c - 48)
  else if c = 43 then 62
  else 63

/-- ASCII code of the base64 padding character. -/
def b64pad : Nat := 61

/-- Base64-encode a byte string (RFC 4648, with padding), as
`Buffer.prototype.toString("base64")` does. -/
def b64encode : Bytes → Bytes
  | [] => []
  | [a] => [b64char (a / 4), b64char (a % 4 * 16), b64pad, b64pad]
  | [a, b] => [b64char (a / 4), b64char (a % 4 * 16 + b / 16), b64char (b % 16 * 4), b64pad]
  | a :: b :: c :: rest =>
      b64char (a / 4) :: b64char (a % 4 * 16 + b / 16) ::
      b64char (b % 16 * 4 + c / 64) :: b64char (c % 64) :: b64encode rest

/-- Base64-decode (the client-side inverse transform). -/
def b64decode : Bytes → Bytes
  | c1 :: c2 :: c3 :: c4 :: rest =>
      if c3 = b64pad then [b64value c1 * 4 + b64value c2 / 16]
      else if c4 = b64pad then
        [b64value c1 * 4 + b64value c2 / 16, b64value c2 % 16 * 16 + b64value c3 / 4]
      else
        (b64value c1 * 4 + b64value c2 / 16) ::
        (b64value c2 % 16 * 16 + b64value c3 / 4) ::
        (b64value c3 % 4 * 64 + b64value c4) :: b64decode rest
  | _ => []

theorem b64value_b64char : ∀ n, n < 64 → b64value (b64char n) = n := by decide

theorem b64char_ne_pad : ∀ n, n < 64 → b64char n ≠ b64pad := by decide

/-- Base64 round-trip on genuine byte strings. -/
theorem b64decode_b64encode (l : Bytes) (h : ∀ x ∈ l, x < 256) :
    b64decode (b64encode l) = l := by
  induction l using b64encode.induct with
  | case1 => simp [b64encode, b64decode]
  | case2 a =>
      have ha : a < 256 := h a (by simp)
      simp only [b64encode, b64decode, if_true,
        b64value_b64char (a / 4) (by omega),
        b64value_b64char (a % 4 * 16) (by omega),
        List.cons.injEq, and_true]
      omega
  | case3 a b =>
      have ha : a < 256 := h a (by simp)
      have hb : b < 256 := h b (by simp)
      simp only [b64encode, b64decode,
        eq_false (b64char_ne_pad (b % 16 * 4) (by omega)), if_false, if_true,
        b64value_b64char (a / 4) (by omega),
        b64value_b64char (a % 4 * 16 + b / 16) (by omega),
        b64value_b64char (b % 16 * 4) (by omega),
        List.cons.injEq, and_true]
      omega
  | case4 a b c rest ih =>
      have ha : a < 256 := h a (by simp)
      have hb : b < 256 := h b (by simp)
      have hc : c < 256 := h c (by simp)
      simp only [b64encode, b64decode,
        eq_false (b64char_ne_pad (b % 16 * 4 + c / 64) (by omega)),
        eq_false (b64char_ne_pad (c % 64) (by omega)), if_false,
        b64value_b64char (a / 4) (by omega),
        b64value_b64char (a % 4 * 16 + b / 16) (by omega),
        b64value_b64char (b % 16 * 4 + c / 64) (by omega),
        b64value_b64char (c % 64) (by omega),
        ih (fun x hx => h x (by simp [hx])),
        List.cons.injEq, and_true]
      omega

/-! ## JSON serialization (`JSON.stringify` for the value shapes this server builds) -/

/-- Decimal digits of a natural number, as ASCII bytes (all numeric fields the
server serializes are non-negative integers). -/
def natBytes (n : Nat) : Bytes := (Nat.toDigits 10 n).map Char.toNat

/-- JSON string escaping for the characters this dataset can contain.
`JSON.stringify` additionally escapes control characters, which never occur in
the generated ASCII data. -/
def jsonEscape (s : Bytes) : Bytes :=
  (s.map fun b => if b = 34 ∨ b = 92 then [92, b] else [b]).flatten

/-- A JSON string literal: quote, escaped contents, quote. -/
def jsonStr (s : Bytes) : Bytes := 34 :: jsonEscape s ++ [34]

/-- One `"key":value` member of a JSON object. -/
def jfield (k : String) (v : Bytes) : Bytes := jsonStr (str k) ++ [58] ++ v

/-! ## The data model (`PriceData` plus the `extraData` merged in by
`Object.assign`, and the per-tick snapshot shape) -/

/-- One generated record: the `PriceData` fields followed by the `extraData`
fields that `Object.assign(priceData, extraData)` merges into it, in JS
property-insertion order (which `JSON.stringify` follows). -/
structure PriceData where
  ts : Nat
  price : Bytes
  compression : Bytes
  originalSize : Nat
  compressedSize : Nat
  id : Nat
  symbol : Bytes
  volume : Nat
  change : Bytes
  changePercent : Bytes
  high : Bytes
  low : Bytes
  market : Bytes
  exchange : Bytes
  bid : Bytes
  ask : Bytes
  timestamp : Nat
  trades_count : Nat
  vwap : Bytes
  deriving Repr, DecidableEq

/-- A per-tick snapshot record: `{ ...item, ts: Date.now(), messageId:
messageCounter }` — all of `item`'s fields in their order, `ts` overwritten
in place, `messageId` appended at the end. -/
structure SnapshotData where
  ts : Nat
  price : Bytes
  compression : Bytes
  originalSize : Nat
  compressedSize : Nat
  id : Nat
  symbol : Bytes
  volume : Nat
  change : Bytes
  changePercent : Bytes
  high : Bytes
  low : Bytes
  market : Bytes
  exchange : Bytes
  bid : Bytes
  ask : Bytes
  timestamp : Nat
  trades_count : Nat
  vwap : Bytes
  messageId : Nat
  deriving Repr, DecidableEq

/-- The object-spread expression `{ ...item, ts: Date.now(), messageId:
messageCounter }` in the tick callback: builds a fresh object, leaving `item`
untouched. -/
def snapshotItem (item : PriceData) (now : Nat) (messageCounter : Nat) : SnapshotData :=
  { ts := now
    price := item.price
    compression := item.compression
    originalSize := item.originalSize
    compressedSize := item.compressedSize
    id := item.id
    symbol := item.symbol
    volume := item.volume
    change := item.change
    changePercent := item.changePercent
    high := item.high
    low := item.low
    market := item.market
    exchange := item.exchange
    bid := item.bid
    ask := item.ask
    timestamp := item.timestamp
    trades_count := item.trades_count
    vwap := item.vwap
    messageId := messageCounter }

/-- Serialization by `JSON.stringify` of one snapshot record. -/
def snapshotJson (r : SnapshotData) : Bytes :=
  [123] ++ (List.intercalate [44]
    [jfield "ts" (natBytes r.ts),
     jfield "price" (jsonStr r.price),
     jfield "compression" (jsonStr r.compression),
     jfield "originalSize" (natBytes r.originalSize),
     jfield "compressedSize" (natBytes r.compressedSize),
     jfield "id" (natBytes r.id),
     jfield "symbol" (jsonStr r.symbol),
     jfield "volume" (natBytes r.volume),
     jfield "change" (jsonStr r.change),
     jfield "changePercent" (jsonStr r.changePercent),
     jfield "high" (jsonStr r.high),
     jfield "low" (jsonStr r.low),
     jfield "market" (jsonStr r.market),
     jfield "exchange" (jsonStr r.exchange),
     jfield "bid" (jsonStr r.bid),
     jfield "ask" (jsonStr r.ask),
     jfield "timestamp" (natBytes r.timestamp),
     jfield "trades_count" (natBytes r.trades_count),
     jfield "vwap" (jsonStr r.vwap),
     jfield "messageId" (natBytes r.messageId)]) ++ [125]

/-- Serialization `JSON.stringify(data)` of the dataset snapshot (a JS array of records),
as the UTF-8 bytes `Buffer.from(jsonString)` yields. -/
def jsonStringify (data : List SnapshotData) : Bytes :=
  [91] ++ List.intercalate [44] (data.map snapshotJson) ++ [93]

/-! ## The four per-method encoders (`src/index.ts` lines 16–87) -/

/-- The `{ compressed, originalSize, compressedSize }` object each encoder
returns (the spec's EncodedPayload). -/
structure EncodedPayload where
  compressed : Bytes
  originalSize : Nat
  compressedSize : Nat
  deriving Repr, DecidableEq

/-- Embeds `compressWithGzip`: serialize, gzip, base64.  NOTE: the source has no
try/catch here — a `none` from `gzipSync` models `zlib.gzipSync` throwing,
and the exception propagates to the caller (see `tick`). -/
def compressWithGzip (gzipSync : Bytes → Option Bytes) (data : List SnapshotData) :
    Option EncodedPayload :=
  let jsonString := jsonStringify data
  let originalBuffer := jsonString
  (gzipSync originalBuffer).map fun compressedBuffer =>
    { compressed := b64encode compressedBuffer
      originalSize := originalBuffer.length
      compressedSize := compressedBuffer.length }

/-- The options object passed to `zlib.brotliCompressSync`:
`BROTLI_PARAM_MODE`, `BROTLI_PARAM_QUALITY`, `BROTLI_PARAM_LGWIN`,
`BROTLI_PARAM_LGBLOCK`. -/
structure BrotliOptions where
  mode : Nat
  quality : Nat
  lgwin : Nat
  lgblock : Nat
  deriving Repr, DecidableEq

/-- The fixed parameter set in `compressWithBrotli`: mode 0
(`zlib.constants.BROTLI_MODE_GENERIC` is the constant 0), quality 10,
window log 15, block log 20. -/
def brotliOptions : BrotliOptions :=
  { mode := 0, quality := 10, lgwin := 15, lgblock := 20 }

/-- Embeds `compressWithBrotli`: serialize, brotli-compress with the fixed
`brotliOptions`, base64.  The whole body is wrapped in try/catch returning
`null` on failure, so a `none` from the codec yields `none` (caught). -/
def compressWithBrotli (brotliCompressSync : BrotliOptions → Bytes → Option Bytes)
    (data : List SnapshotData) : Option EncodedPayload :=
  let jsonString := jsonStringify data
  let originalBuffer := jsonString
  (brotliCompressSync brotliOptions originalBuffer).map fun compressedBuffer =>
    { compressed := b64encode compressedBuffer
      originalSize := originalBuffer.length
      compressedSize := compressedBuffer.length }

/-- The fixed `{ level: 6 }` passed to `Bun.zstdCompressSync`. -/
def zstdLevel : Nat := 6

/-- Embeds `compressWithZstd`: serialize, zstd-compress at level 6, base64.  Like
brotli, wrapped in try/catch returning `null` on failure. -/
def compressWithZstd (zstdCompressSync : Nat → Bytes → Option Bytes)
    (data : List SnapshotData) : Option EncodedPayload :=
  let jsonString := jsonStringify data
  let originalBuffer := jsonString
  (zstdCompressSync zstdLevel originalBuffer).map fun compressedBuffer =>
    { compressed := b64encode compressedBuffer
      originalSize := originalBuffer.length
      compressedSize := compressedBuffer.length }

/-- Embeds `noCompression`: serialize only; `compressed` is the raw JSON text itself
(not base64), and both sizes are the byte length of the JSON. -/
def noCompression (data : List SnapshotData) : EncodedPayload :=
  let jsonString := jsonStringify data
  let size := jsonString.length
  { compressed := jsonString
    originalSize := size
    compressedSize := size }

/-! ## Dataset generator (`generateLargePriceDataset`, lines 1446–1507) -/

/-- Oracle for the `Math.random` / `Math.sin` / float-formatting derived field
values of record `i` (non-deterministic floating point, out of scope for the
embedding; none of the claims depend on these values). -/
structure GenOracle where
  price : Nat → Bytes
  volume : Nat → Nat
  change : Nat → Bytes
  changePercent : Nat → Bytes
  high : Nat → Bytes
  low : Nat → Bytes
  bid : Nat → Bytes
  ask : Nat → Bytes
  trades_count : Nat → Nat
  vwap : Nat → Bytes

def symbols : List Bytes :=
  [str "BTC/USD", str "ETH/USD", str "ADA/USD", str "DOT/USD",
   str "SOL/USD", str "AVAX/USD", str "MATIC/USD", str "LINK/USD"]

def exchanges : List Bytes :=
  [str "binance", str "coinbase", str "kraken", str "ftx",
   str "huobi", str "okex", str "bybit", str "kucoin"]

def markets : List Bytes :=
  [str "crypto", str "forex", str "stocks", str "commodities"]

/-- Embeds `generateLargePriceDataset(count)`: the `for` loop pushing one record per
`i < count`.  `symbols[i % symbols.length] || "BTC/USD"` is an index with a
fallback default, modelled by `List.getD`. -/
def generateLargePriceDataset (g : GenOracle) (baseTime : Nat) (count : Nat) :
    List PriceData :=
  (List.range count).map fun i =>
    { ts := baseTime + i * 1000
      price := g.price i
      compression := str "none"
      originalSize := 0
      compressedSize := 0
      id := i + 1
      symbol := symbols.getD (i % symbols.length) (str "BTC/USD")
      volume := g.volume i
      change := g.change i
      changePercent := g.changePercent i
      high := g.high i
      low := g.low i
      market := markets.getD (i % markets.length) (str "crypto")
      exchange := exchanges.getD (i % exchanges.length) (str "binance")
      bid := g.bid i
      ask := g.ask i
      timestamp := baseTime + i * 1000
      trades_count := g.trades_count i
      vwap := g.vwap i }

/-- The constant `DATASET_SIZE = 1000`. -/
def DATASET_SIZE : Nat := 1000

/-! ## The broadcast tick (`setInterval` callback, lines 1516–1553) -/

/-- The three opaque compression library entry points; `none` models the
library call throwing. -/
structure Codecs where
  gzipSync : Bytes → Option Bytes
  brotliCompressSync : BrotliOptions → Bytes → Option Bytes
  zstdCompressSync : Nat → Bytes → Option Bytes

/-- The broadcaster's mutable state: the canonical dataset generated once at
startup, and `let messageCounter = 0`. -/
structure ServerState where
  largePriceDataset : List PriceData
  messageCounter : Nat
  deriving Repr, DecidableEq

/-- The `currentDataset` value built at the top of the tick callback, after
`messageCounter++`: a fresh snapshot list mapping `snapshotItem` over the
canonical dataset. -/
def currentDatasetAt (s : ServerState) (now : Nat) : List SnapshotData :=
  s.largePriceDataset.map fun item => snapshotItem item now (s.messageCounter + 1)

/-- One firing of the `setInterval` callback.  Returns the new state, the
list of `(topic, payload)` pairs published (in program order), and a flag
that is `true` exactly when the callback threw.  `compressWithGzip` has no
try/catch, so a gzip failure propagates out of the callback after the
`feed-none` publish has already happened and before brotli/zstd run;
brotli/zstd failures are caught inside their functions (`null`), which makes
the `if (brotliResult)` / `if (zstdResult)` guards skip just that publish. -/
def tick (c : Codecs) (now : Nat) (s : ServerState) :
    ServerState × List (Bytes × Bytes) × Bool :=
  let s' : ServerState := { s with messageCounter := s.messageCounter + 1 }
  let currentDataset := currentDatasetAt s now
  let noneResult := noCompression currentDataset
  let pubsNone := [(str "feed-none", noneResult.compressed)]
  match compressWithGzip c.gzipSync currentDataset with
  | none => (s', pubsNone, true)
  | some gzipResult =>
    let pubsGzip := pubsNone ++ [(str "feed-gzip", gzipResult.compressed)]
    let pubsBrotli := pubsGzip ++
      (match compressWithBrotli c.brotliCompressSync currentDataset with
       | some r => [(str "feed-brotli", r.compressed)]
       | none => [])
    let pubsZstd := pubsBrotli ++
      (match compressWithZstd c.zstdCompressSync currentDataset with
       | some r => [(str "feed-zstd", r.compressed)]
       | none => [])
    (s', pubsZstd, false)

/-- The server state after `n` firings of the timer, starting from `s0`;
`times k` is the value `Date.now()` returns during firing `k`. -/
def runTicks (c : Codecs) (times : Nat → Nat) (s0 : ServerState) : Nat → ServerState
  | 0 => s0
  | n + 1 => (tick c (times n) (runTicks c times s0 n)).1

/-- The snapshot list encoded and published during firing `n` (0-based). -/
def snapshotOfTick (c : Codecs) (times : Nat → Nat) (s0 : ServerState) (n : Nat) :
    List SnapshotData :=
  currentDatasetAt (runTicks c times s0 n) (times n)

/-- The `(topic, payload)` publishes of firing `n`. -/
def publishesOfTick (c : Codecs) (times : Nat → Nat) (s0 : ServerState) (n : Nat) :
    List (Bytes × Bytes) :=
  (tick c (times n) (runTicks c times s0 n)).2.1

/-! ## WebSocket endpoints (`.ws("/feed/...")` handlers, lines 1375–1426) -/

/-- The four feed routes. -/
inductive FeedPath | feedNone | feedGzip | feedBrotli | feedZstd
  deriving Repr, DecidableEq

/-- Process-wide state visible to the WebSocket handlers: the four channels'
subscriber sets (connection ids) and the broadcaster state. -/
structure AppState where
  subsNone : List Nat
  subsGzip : List Nat
  subsBrotli : List Nat
  subsZstd : List Nat
  server : ServerState
  deriving Repr, DecidableEq

/-- The `open` handler of each endpoint: `ws.subscribe("feed-…")`. -/
def wsOpen (route : FeedPath) (st : AppState) (ws : Nat) : AppState :=
  match route with
  | .feedNone => { st with subsNone := ws :: st.subsNone }
  | .feedGzip => { st with subsGzip := ws :: st.subsGzip }
  | .feedBrotli => { st with subsBrotli := ws :: st.subsBrotli }
  | .feedZstd => { st with subsZstd := ws :: st.subsZstd }

/-- The `close` handler of each endpoint: `ws.unsubscribe("feed-…")`. -/
def wsClose (route : FeedPath) (st : AppState) (ws : Nat) : AppState :=
  match route with
  | .feedNone => { st with subsNone := st.subsNone.filter (· ≠ ws) }
  | .feedGzip => { st with subsGzip := st.subsGzip.filter (· ≠ ws) }
  | .feedBrotli => { st with subsBrotli := st.subsBrotli.filter (· ≠ ws) }
  | .feedZstd => { st with subsZstd := st.subsZstd.filter (· ≠ ws) }

/-- The `message` handler of each endpoint.  Each of the four bodies in the
source is empty (`// Handle incoming messages if needed`): no state change,
no outbound frame.  The result's second component is the list of frames sent
in reply. -/
def wsMessage (route : FeedPath) (st : AppState) (ws : Nat) (msg : Bytes) :
    AppState × List Bytes :=
  match route with
  | .feedNone => (st, [])
  | .feedGzip => (st, [])
  | .feedBrotli => (st, [])
  | .feedZstd => (st, [])

/-! ## Concrete instances for evaluating the theorems -/

/-- Codecs where every library call succeeds and returns its input unchanged
(a legal instantiation of the opaque compression calls). -/
def idCodecs : Codecs :=
  { gzipSync := fun b => some b
    brotliCompressSync := fun _ b => some b
    zstdCompressSync := fun _ b => some b }

/-- Codecs where `zlib.gzipSync` throws but brotli and zstd succeed. -/
def gzipThrowingCodecs : Codecs :=
  { gzipSync := fun _ => none
    brotliCompressSync := fun _ b => some b
    zstdCompressSync := fun _ b => some b }

/-- A minimal concrete record (string fields empty, numbers zero). -/
def samplePriceData : PriceData :=
  { ts := 0, price := [], compression := str "none", originalSize := 0
    compressedSize := 0, id := 1, symbol := [], volume := 0, change := []
    changePercent := [], high := [], low := [], market := [], exchange := []
    bid := [], ask := [], timestamp := 0, trades_count := 0, vwap := [] }

/-- A one-record broadcaster state. -/
def sampleState : ServerState :=
  { largePriceDataset := [samplePriceData], messageCounter := 0 }

/-- A generator oracle returning fixed trivial values. -/
def sampleOracle : GenOracle :=
  { price := fun _ => [], volume := fun _ => 0, change := fun _ => []
    changePercent := fun _ => [], high := fun _ => [], low := fun _ => []
    bid := fun _ => [], ask := fun _ => [], trades_count := fun _ => 0
    vwap := fun _ => [] }

/-! ## Helper lemmas about the tick -/

theorem tick_fst (c : Codecs) (now : Nat) (s : ServerState) :
    (tick c now s).1 = { s with messageCounter := s.messageCounter + 1 } := by
  cases h : compressWithGzip c.gzipSync (currentDatasetAt s now) <;> simp [tick, h]

theorem runTicks_messageCounter (c : Codecs) (times : Nat → Nat) (s0 : ServerState)
    (n : Nat) : (runTicks c times s0 n).messageCounter = s0.messageCounter + n := by
  induction n with
  | zero => rfl
  | succ k ih => rw [runTicks, tick_fst]; simp [ih]; omega

theorem runTicks_largePriceDataset (c : Codecs) (times : Nat → Nat) (s0 : ServerState)
    (n : Nat) : (runTicks c times s0 n).largePriceDataset = s0.largePriceDataset := by
  induction n with
  | zero => rfl
  | succ k ih => rw [runTicks, tick_fst]; simpa using ih

theorem mem_currentDatasetAt_messageId {s : ServerState} {now : Nat} {r : SnapshotData}
    (h : r ∈ currentDatasetAt s now) : r.messageId = s.messageCounter + 1 := by
  simp only [currentDatasetAt, List.mem_map] at h
  obtain ⟨item, -, rfl⟩ := h
  rfl

/-! ## The claims -/

/-- C3: within one tick all four methods are computed from the byte-identical
JSON serialization `jsonStringify (currentDatasetAt s now)` of the one
snapshot: each encoder feeds exactly those bytes to its codec, and the
`originalSize` each reports is that byte string's length. -/
theorem tick_methods_share_snapshot_bytes (c : Codecs) (now : Nat) (s : ServerState) :
    (noCompression (currentDatasetAt s now)).originalSize
        = (jsonStringify (currentDatasetAt s now)).length ∧
    compressWithGzip c.gzipSync (currentDatasetAt s now)
        = (c.gzipSync (jsonStringify (currentDatasetAt s now))).map
            (fun cb => { compressed := b64encode cb
                         originalSize := (jsonStringify (currentDatasetAt s now)).length
                         compressedSize := cb.length }) ∧
    compressWithBrotli c.brotliCompressSync (currentDatasetAt s now)
        = (c.brotliCompressSync brotliOptions (jsonStringify (currentDatasetAt s now))).map
            (fun cb => { compressed := b64encode cb
                         originalSize := (jsonStringify (currentDatasetAt s now)).length
                         compressedSize := cb.length }) ∧
    compressWithZstd c.zstdCompressSync (currentDatasetAt s now)
        = (c.zstdCompressSync zstdLevel (jsonStringify (currentDatasetAt s now))).map
            (fun cb => { compressed := b64encode cb
                         originalSize := (jsonStringify (currentDatasetAt s now)).length
                         compressedSize := cb.length }) :=
  ⟨rfl, rfl, rfl, rfl⟩

/-- C4: the none-method encoder serializes the dataset to JSON text and
reports `compressedSize = originalSize`, both the byte length of the JSON
encoding. -/
theorem noCompression_sizes (data : List SnapshotData) :
    (noCompression data).compressed = jsonStringify data ∧
    (noCompression data).compressedSize = (noCompression data).originalSize ∧
    (noCompression data).originalSize = (jsonStringify data).length :=
  ⟨rfl, rfl, rfl⟩

/-- C7: the brotli encoder always passes the one fixed parameter set, whose
content mode is generic (`BROTLI_MODE_GENERIC = 0`) and whose quality level
10 lies in the 6–10 range. -/
theorem brotli_fixed_params (brotliCompressSync : BrotliOptions → Bytes → Option Bytes)
    (data : List SnapshotData) :
    brotliOptions.mode = 0 ∧
    6 ≤ brotliOptions.quality ∧ brotliOptions.quality ≤ 10 ∧
    compressWithBrotli brotliCompressSync data
      = (brotliCompressSync brotliOptions (jsonStringify data)).map
          (fun cb => { compressed := b64encode cb
                       originalSize := (jsonStringify data).length
                       compressedSize := cb.length }) :=
  ⟨rfl, by decide, by decide, rfl⟩

/-- C8: on every feed endpoint, an inbound client message is accepted but
ignored: the handler leaves the entire process state (subscriber sets,
dataset, counter) unchanged and sends no reply frame. -/
theorem wsMessage_ignored (route : FeedPath) (st : AppState) (ws : Nat) (msg : Bytes) :
    wsMessage route st ws msg = (st, []) := by
  cases route <;> rfl

/-- C10: the none channel's payload is the raw JSON text itself, not base64:
`noCompression`'s transport text equals the serialization of the snapshot,
and exactly that byte string is what the tick publishes on `feed-none`. -/
theorem none_payload_raw_json (c : Codecs) (now : Nat) (s : ServerState) :
    (noCompression (currentDatasetAt s now)).compressed
        = jsonStringify (currentDatasetAt s now) ∧
    (str "feed-none", jsonStringify (currentDatasetAt s now)) ∈ (tick c now s).2.1 := by
  refine ⟨rfl, ?_⟩
  cases h : compressWithGzip c.gzipSync (currentDatasetAt s now) <;>
    simp [tick, h, noCompression]

set_option maxRecDepth 4000 in
/-- C6: the per-tick snapshot refresh never mutates the canonical dataset:
after any number of tick firings starting from the startup state, the stored
dataset is still exactly what `generateLargePriceDataset` produced. -/
theorem canonical_dataset_never_mutated (c : Codecs) (times : Nat → Nat)
    (g : GenOracle) (baseTime n : Nat) :
    (runTicks c times
        { largePriceDataset := generateLargePriceDataset g baseTime DATASET_SIZE
          messageCounter := 0 } n).largePriceDataset
      = generateLargePriceDataset g baseTime DATASET_SIZE :=
  runTicks_largePriceDataset c times
    { largePriceDataset := generateLargePriceDataset g baseTime DATASET_SIZE
      messageCounter := 0 } n

/-- C9: for every count `n ≥ 0`, `generateLargePriceDataset(n)` yields exactly
`n` records; the record at 0-based index `i` has `id = i + 1` and
`ts = baseTime + i * 1000`; and the `ts` fields are strictly increasing along
the list. -/
theorem generateLargePriceDataset_ids_ts (g : GenOracle) (baseTime n : Nat) :
    (generateLargePriceDataset g baseTime n).length = n ∧
    (∀ (i : Nat) (r : PriceData),
       (generateLargePriceDataset g baseTime n)[i]? = some r →
       r.id = i + 1 ∧ r.ts = baseTime + i * 1000) ∧
    (∀ (i j : Nat) (r r' : PriceData), i < j →
       (generateLargePriceDataset g baseTime n)[i]? = some r →
       (generateLargePriceDataset g baseTime n)[j]? = some r' →
       r.ts < r'.ts) := by
  have key : ∀ (i : Nat) (r : PriceData),
      (generateLargePriceDataset g baseTime n)[i]? = some r →
      r.id = i + 1 ∧ r.ts = baseTime + i * 1000 := by
    intro i r hr
    simp only [generateLargePriceDataset, List.getElem?_map] at hr
    obtain ⟨a, ha, rfl⟩ := Option.map_eq_some'.mp hr
    have hin : i < n := by
      by_contra hge
      rw [List.getElem?_eq_none (by simpa using Nat.le_of_not_lt hge)] at ha
      exact Option.noConfusion ha
    rw [List.getElem?_range hin] at ha
    cases ha
    exact ⟨rfl, rfl⟩
  refine ⟨by simp [generateLargePriceDataset], key, ?_⟩
  intro i j r r' hij hr hr'
  have h1 := (key i r hr).2
  have h2 := (key j r' hr').2
  omega

/-- Witness for C9: the conclusion holds at `n = 2` with the trivial oracle,
its per-index part instantiated at indices 0 and 1. -/
theorem generateLargePriceDataset_ids_ts_witness :
    (generateLargePriceDataset sampleOracle 5 2).length = 2 ∧
    ((generateLargePriceDataset sampleOracle 5 2).getD 0 samplePriceData).id = 0 + 1 ∧
    ((generateLargePriceDataset sampleOracle 5 2).getD 0 samplePriceData).ts = 5 + 0 * 1000 ∧
    ((generateLargePriceDataset sampleOracle 5 2).getD 1 samplePriceData).id = 1 + 1 ∧
    ((generateLargePriceDataset sampleOracle 5 2).getD 1 samplePriceData).ts = 5 + 1 * 1000 ∧
    ((generateLargePriceDataset sampleOracle 5 2).getD 0 samplePriceData).ts
      < ((generateLargePriceDataset sampleOracle 5 2).getD 1 samplePriceData).ts :=
  ⟨(generateLargePriceDataset_ids_ts sampleOracle 5 2).1,
   ((generateLargePriceDataset_ids_ts sampleOracle 5 2).2.1 0
      ((generateLargePriceDataset sampleOracle 5 2).getD 0 samplePriceData) (by decide)).1,
   ((generateLargePriceDataset_ids_ts sampleOracle 5 2).2.1 0
      ((generateLargePriceDataset sampleOracle 5 2).getD 0 samplePriceData) (by decide)).2,
   ((generateLargePriceDataset_ids_ts sampleOracle 5 2).2.1 1
      ((generateLargePriceDataset sampleOracle 5 2).getD 1 samplePriceData) (by decide)).1,
   ((generateLargePriceDataset_ids_ts sampleOracle 5 2).2.1 1
      ((generateLargePriceDataset sampleOracle 5 2).getD 1 samplePriceData) (by decide)).2,
   (generateLargePriceDataset_ids_ts sampleOracle 5 2).2.2 0 1
     ((generateLargePriceDataset sampleOracle 5 2).getD 0 samplePriceData)
     ((generateLargePriceDataset sampleOracle 5 2).getD 1 samplePriceData)
     (by decide) (by decide) (by decide)⟩

/-- C5: every tick snapshots with the incremented monotonic `messageCounter`,
so across ticks the injected `messageId` of any record of an earlier tick's
payload is strictly smaller than that of any record of a later tick's. -/
theorem messageId_strictly_increasing (c : Codecs) (times : Nat → Nat)
    (s0 : ServerState) (m n : Nat) (r r' : SnapshotData) (hmn : m < n)
    (hr : r ∈ snapshotOfTick c times s0 m) (hr' : r' ∈ snapshotOfTick c times s0 n) :
    r.messageId = s0.messageCounter + m + 1 ∧
    r'.messageId = s0.messageCounter + n + 1 ∧
    r.messageId < r'.messageId := by
  simp only [snapshotOfTick] at hr hr'
  have h1 := mem_currentDatasetAt_messageId hr
  have h2 := mem_currentDatasetAt_messageId hr'
  rw [runTicks_messageCounter] at h1 h2
  omega

/-- Witness for C5: ticks 0 and 1 from the one-record startup state. -/
theorem messageId_strictly_increasing_witness :
    (0 : Nat) < 1 ∧
    snapshotItem samplePriceData 0 1 ∈ snapshotOfTick idCodecs (fun _ => 0) sampleState 0 ∧
    snapshotItem samplePriceData 0 2 ∈ snapshotOfTick idCodecs (fun _ => 0) sampleState 1 ∧
    ((snapshotItem samplePriceData 0 1).messageId = sampleState.messageCounter + 0 + 1 ∧
     (snapshotItem samplePriceData 0 2).messageId = sampleState.messageCounter + 1 + 1 ∧
     (snapshotItem samplePriceData 0 1).messageId
       < (snapshotItem samplePriceData 0 2).messageId) :=
  ⟨by decide, by decide, by decide,
   messageId_strictly_increasing idCodecs (fun _ => 0) sampleState 0 1 _ _
     (by decide) (by decide) (by decide)⟩

/-- C2: round-trip fidelity for all four methods.  The none decode transform
is the identity; for gzip/brotli/zstd the decode transform base64-decodes and
then decompresses.  Under the assumption that each library decompressor
inverts its compressor on this tick's bytes (the codecs are opaque library
calls), decoding each method's transport text yields exactly the JSON
serialization of the dataset. -/
theorem decode_encode_roundtrip (data : List SnapshotData) (c : Codecs)
    (gunzip unbrotli unzstd : Bytes → Bytes) (gz br zs : Bytes)
    (hgz : c.gzipSync (jsonStringify data) = some gz)
    (hbr : c.brotliCompressSync brotliOptions (jsonStringify data) = some br)
    (hzs : c.zstdCompressSync zstdLevel (jsonStringify data) = some zs)
    (hgzB : ∀ x ∈ gz, x < 256) (hbrB : ∀ x ∈ br, x < 256) (hzsB : ∀ x ∈ zs, x < 256)
    (hgundo : gunzip gz = jsonStringify data)
    (hbundo : unbrotli br = jsonStringify data)
    (hzundo : unzstd zs = jsonStringify data) :
    (noCompression data).compressed = jsonStringify data ∧
    (compressWithGzip c.gzipSync data).map (fun r => gunzip (b64decode r.compressed))
      = some (jsonStringify data) ∧
    (compressWithBrotli c.brotliCompressSync data).map
        (fun r => unbrotli (b64decode r.compressed))
      = some (jsonStringify data) ∧
    (compressWithZstd c.zstdCompressSync data).map
        (fun r => unzstd (b64decode r.compressed))
      = some (jsonStringify data) := by
  refine ⟨rfl, ?_, ?_, ?_⟩
  · simp only [compressWithGzip, hgz, Option.map_some']
    rw [b64decode_b64encode gz hgzB, hgundo]
  · simp only [compressWithBrotli, hbr, Option.map_some']
    rw [b64decode_b64encode br hbrB, hbundo]
  · simp only [compressWithZstd, hzs, Option.map_some']
    rw [b64decode_b64encode zs hzsB, hzundo]

/-- Witness for C2 with the identity codecs on the empty dataset. -/
theorem decode_encode_roundtrip_witness :
    idCodecs.gzipSync (jsonStringify []) = some (jsonStringify []) ∧
    idCodecs.brotliCompressSync brotliOptions (jsonStringify [])
      = some (jsonStringify []) ∧
    idCodecs.zstdCompressSync zstdLevel (jsonStringify []) = some (jsonStringify []) ∧
    (∀ x ∈ jsonStringify [], x < 256) ∧
    ((noCompression []).compressed = jsonStringify [] ∧
     (compressWithGzip idCodecs.gzipSync []).map (fun r => id (b64decode r.compressed))
       = some (jsonStringify []) ∧
     (compressWithBrotli idCodecs.brotliCompressSync []).map
         (fun r => id (b64decode r.compressed))
       = some (jsonStringify []) ∧
     (compressWithZstd idCodecs.zstdCompressSync []).map
         (fun r => id (b64decode r.compressed))
       = some (jsonStringify [])) :=
  ⟨rfl, rfl, rfl, by decide,
   decode_encode_roundtrip [] idCodecs id id id
     (jsonStringify []) (jsonStringify []) (jsonStringify [])
     rfl rfl rfl (by decide) (by decide) (by decide) rfl rfl rfl⟩

/-- C1 counterexample: `compressWithGzip` has no try/catch, so a gzip
failure aborts the tick.  With codecs where `zlib.gzipSync` throws while the
brotli and zstd codecs would succeed, the callback throws (flag `true`) after
publishing only `feed-none` — the brotli and zstd encode/publish steps never
run, refuting "no method's failure aborts the tick". -/
theorem gzip_failure_aborts_tick :
    (tick gzipThrowingCodecs 0 sampleState).2.2 = true ∧
    (tick gzipThrowingCodecs 0 sampleState).2.1.map Prod.fst = [str "feed-none"] ∧
    (compressWithBrotli gzipThrowingCodecs.brotliCompressSync
        (currentDatasetAt sampleState 0)).isSome = true ∧
    (compressWithZstd gzipThrowingCodecs.zstdCompressSync
        (currentDatasetAt sampleState 0)).isSome = true := by
  refine ⟨rfl, ?_, rfl, rfl⟩
  simp [tick, compressWithGzip, gzipThrowingCodecs]

/-- C1 amended: brotli and zstd failures are caught inside their encoders
(`null`), so each such failure only skips that method's publish and the tick
completes; gzip (and the none serializer) are unguarded, so whenever
`zlib.gzipSync` succeeds the tick completes and publishes `feed-none`,
`feed-gzip`, then `feed-brotli` / `feed-zstd` exactly when those codecs
succeed.  (When gzip fails the tick aborts — see the counterexample.) -/
theorem tick_error_isolation_amended (c : Codecs) (now : Nat) (s : ServerState)
    (out : Bytes)
    (hg : c.gzipSync (jsonStringify (currentDatasetAt s now)) = some out) :
    (tick c now s).2.2 = false ∧
    (tick c now s).2.1.map Prod.fst =
      [str "feed-none", str "feed-gzip"] ++
      ((compressWithBrotli c.brotliCompressSync (currentDatasetAt s now)).elim []
         (fun _ => [str "feed-brotli"])) ++
      ((compressWithZstd c.zstdCompressSync (currentDatasetAt s now)).elim []
         (fun _ => [str "feed-zstd"])) := by
  have hgz : compressWithGzip c.gzipSync (currentDatasetAt s now)
      = some { compressed := b64encode out
               originalSize := (jsonStringify (currentDatasetAt s now)).length
               compressedSize := out.length } := by
    simp [compressWithGzip, hg]
  cases hb : compressWithBrotli c.brotliCompressSync (currentDatasetAt s now) <;>
  cases hz : compressWithZstd c.zstdCompressSync (currentDatasetAt s now) <;>
    simp [tick, hgz, hb, hz]

/-- Witness for the amended C1: identity codecs on the one-record state. -/
theorem tick_error_isolation_amended_witness :
    idCodecs.gzipSync (jsonStringify (currentDatasetAt sampleState 0))
      = some (jsonStringify (currentDatasetAt sampleState 0)) ∧
    ((tick idCodecs 0 sampleState).2.2 = false ∧
     (tick idCodecs 0 sampleState).2.1.map Prod.fst =
       [str "feed-none", str "feed-gzip"] ++
       ((compressWithBrotli idCodecs.brotliCompressSync
           (currentDatasetAt sampleState 0)).elim [] (fun _ => [str "feed-brotli"])) ++
       ((compressWithZstd idCodecs.zstdCompressSync
           (currentDatasetAt sampleState 0)).elim [] (fun _ => [str "feed-zstd"]))) :=
  ⟨rfl, tick_error_isolation_amended idCodecs 0 sampleState
    (jsonStringify (currentDatasetAt sampleState 0)) rfl⟩
